import Mathlib

/-!
Shallow embedding of `memprobe` (`src/main.rs`): a tool that samples the
resident and virtual memory usage of one process at a fixed interval and
records the samples as CSV rows on a sink (a file or standard output).

The program is a sequential polling loop around OS-provided process
statistics.  We model the environment (the `sysinfo` process queries, the
fallibility of writer I/O, and file opening) as oracles indexed by call
count, the `csv::Writer` as a record buffer in front of the underlying
medium (the `csv` crate buffers writes; `flush` pushes the buffer through,
and dropping the writer flushes it, ignoring errors), and the run itself
as a fuel-bounded loop that also produces a trace of observable events.
-/

set_option autoImplicit false

namespace Memprobe

/-- A process entry as reported by the OS process-information provider
(the `sysinfo` crate): the resident memory reading `memory()` and the
virtual memory reading `virtual_memory()`. -/
structure Process where
  memory : Nat
  virtual_memory : Nat
deriving DecidableEq

/-- Environment oracle for one run.  `refresh k` is the boolean returned
by the k-th call to `system.refresh_process(pid)` — call 0 is the initial
refresh in `main` whose result is discarded, and call `k + 1` is the
`while` condition of loop iteration `k`.  `proc k` is the process-table
entry returned by `system.process(pid)` during loop iteration `k`.
`ioOk n` tells whether the n-th writer operation succeeds (the header
write is operation 0) and `ioMsg n` is the underlying I/O error text when
it fails.  `openOk p` tells whether creating/truncating path `p`
succeeds and `openMsg p` is the OS error text when it does not. -/
structure Os where
  refresh : Nat → Bool
  proc : Nat → Option Process
  ioOk : Nat → Bool
  ioMsg : Nat → String
  openOk : String → Bool
  openMsg : String → String

/-- Observable events of a run, in program order.  `evSleep` records the
`thread::sleep` call that ends a tick. -/
inductive Event where
  | evRefresh (found : Bool)
  | evLookup (found : Bool)
  | evOpenFile (path : String)
  | evWriteHeader
  | evWriteRow (res virt : String)
  | evFlush
  | evSleep (ms : Nat)
deriving DecidableEq

/-- The `csv::Writer` over the sink: an internal record buffer in front
of the underlying medium.  `write_record` appends a record to the
internal buffer; `flush` moves the buffered records onto the medium.
The writer's default 8 KiB capacity is never reached by this program (an
explicit flush follows every data row and records are a few bytes), so
capacity-triggered flushes never occur and are not modelled. -/
structure WriterState where
  buffer : List (List String)
  medium : List (List String)
deriving DecidableEq

/-- `csv::Writer::write_record`: append one record to the internal
buffer. -/
def write_record (w : WriterState) (r : List String) : WriterState :=
  { w with buffer := w.buffer ++ [r] }

/-- `csv::Writer::flush`: push the buffered records through to the
underlying medium. -/
def flushWriter (w : WriterState) : WriterState :=
  { buffer := [], medium := w.medium ++ w.buffer }

/-- Dropping a `csv::Writer` flushes the remaining buffered records,
ignoring errors: if the underlying write fails at that point the
buffered data is lost. -/
def dropWriter (os : Os) (n : Nat) (w : WriterState) : WriterState :=
  if os.ioOk n then flushWriter w else w

/-- The header record written before the loop: `&["RES", "VIRT"]`. -/
def headerRecord : List String := ["RES", "VIRT"]

/-- The data record for one sample:
`&[memory.to_string(), virtual_memory.to_string()]` (decimal). -/
def recordOf (p : Process) : List String :=
  [toString p.memory, toString p.virtual_memory]

/-- The resolved sink target: standard output, or a file at a path. -/
inductive Sink where
  | stdout
  | file (path : String)
deriving DecidableEq

/-- The default output path `format!("memprobe-{}.csv", pid)`. -/
def defaultPath (pid : Nat) : String :=
  "memprobe-" ++ toString pid ++ ".csv"

/-- File-system model: the content (as CSV records) stored at each
path. -/
def Fs : Type := String → List (List String)

/-- `OpenOptions::new().create(true).write(true).truncate(true).open`:
the file at `path` exists afterwards and is empty, whatever was there
before; every other path is untouched. -/
def openTrunc (fs : Fs) (path : String) : Fs :=
  fun p => if p = path then [] else fs p

/-- The parsed command-line arguments (`struct Args`).  `pid` is the
target process id, `interval_ms` the polling period (default 250),
`stdout` the flag selecting standard output, `output_file` the optional
explicit path.  `clap` enforces `conflicts_with = "output_file"` on
`stdout`: supplying both is rejected at parse time. -/
structure Args where
  pid : Nat
  interval_ms : Nat
  stdout : Bool
  output_file : Option String
deriving DecidableEq

/-- `fn writer_from_args`: resolve and acquire the sink.  With the
`stdout` flag the sink is standard output and nothing touches the file
system; otherwise the file at the explicit path — or the default path —
is created/truncated, and an open failure is reported with the context
`trying to create and truncate `path``.  Errors are context chains,
outermost first. -/
def writer_from_args (os : Os) (pid : Nat) (stdout : Bool)
    (output_file : Option String) (fs : Fs) :
    Except (List String) (Sink × Fs) :=
  if stdout then
    .ok (.stdout, fs)
  else
    let path := output_file.getD (defaultPath pid)
    if os.openOk path then
      .ok (.file path, openTrunc fs path)
    else
      .error ["trying to create and truncate `" ++ path ++ "`", os.openMsg path]

/-- The mutable state of the sampling loop: the iteration counter
(`tick k` checks `refresh` call `k + 1`), the count of writer operations
so far, the writer, and the event trace so far. -/
structure LoopState where
  tick : Nat
  opCount : Nat
  writer : WriterState
  trace : List Event
deriving DecidableEq

/-- Result of one evaluation of the loop: continue to the next
iteration, exit the loop normally (`refresh_process` returned `false`),
or abort with an error context chain. -/
inductive StepOut where
  | next (s : LoopState)
  | done (s : LoopState)
  | failed (e : List String) (s : LoopState)
deriving DecidableEq

/-- One evaluation of `while system.refresh_process(pid) { ... }`: the
condition check, then the body guarded by
`if let Some(process) = system.process(pid)`.  When a process entry is
found the body writes the record, flushes, and sleeps for `interval_ms`;
a write or flush error aborts with its context; when no entry is found
the body does nothing and the loop re-polls at once. -/
def loopIter (os : Os) (interval_ms : Nat) (s : LoopState) : StepOut :=
  if os.refresh (s.tick + 1) then
    match os.proc s.tick with
    | none =>
        .next { s with
          tick := s.tick + 1
          trace := s.trace ++ [.evRefresh true, .evLookup false] }
    | some p =>
        if os.ioOk s.opCount then
          if os.ioOk (s.opCount + 1) then
            .next
              { tick := s.tick + 1
                opCount := s.opCount + 2
                writer := flushWriter (write_record s.writer (recordOf p))
                trace := s.trace ++ [.evRefresh true, .evLookup true,
                  .evWriteRow (toString p.memory) (toString p.virtual_memory),
                  .evFlush, .evSleep interval_ms] }
          else
            .failed ["when flushing the CSV file", os.ioMsg (s.opCount + 1)]
              { s with
                opCount := s.opCount + 2
                writer := write_record s.writer (recordOf p)
                trace := s.trace ++ [.evRefresh true, .evLookup true,
                  .evWriteRow (toString p.memory) (toString p.virtual_memory)] }
        else
          .failed ["when writing a new line into the CSV file", os.ioMsg s.opCount]
            { s with
              opCount := s.opCount + 1
              trace := s.trace ++ [.evRefresh true, .evLookup true] }
  else
    .done { s with trace := s.trace ++ [.evRefresh false] }

/-- The observable outcome of a run: clean termination with the final
medium content of the sink (process exit code 0), an error context chain
(exit code 1, `anyhow` prints the chain), a `clap` usage error for
conflicting flags (exit code 2, nothing else happened), or fuel
exhaustion (the loop is still running). -/
inductive Outcome where
  | finished (output : List (List String)) (trace : List Event)
  | errored (e : List String) (trace : List Event)
  | usage
  | outOfFuel (s : LoopState)
deriving DecidableEq

/-- Run the sampling loop for at most `fuel` iterations.  On normal exit
the writer is dropped, flushing any still-buffered records onto the
medium. -/
def runLoop (os : Os) (interval_ms : Nat) : Nat → LoopState → Outcome
  | 0, s => .outOfFuel s
  | fuel + 1, s =>
    match loopIter os interval_ms s with
    | .next s' => runLoop os interval_ms fuel s'
    | .done s' => .finished (dropWriter os s'.opCount s'.writer).medium s'.trace
    | .failed e s' => .errored e s'.trace

/-- Everything `main` does before the `while` loop: the initial
(discarded) `refresh_process` call, sink acquisition wrapped with the
context `when creating the CSV file`, and the header `write_record`
wrapped with the context `when writing the headers into the CSV file`.
On success, the initial loop state: the header sits in the writer
buffer (no flush is issued before the loop). -/
def preLoop (os : Os) (a : Args) (fs : Fs) :
    Except (List String × List Event) LoopState :=
  let preTrace : List Event := [.evRefresh (os.refresh 0)]
  match writer_from_args os a.pid a.stdout a.output_file fs with
  | .error e => .error ("when creating the CSV file" :: e, preTrace)
  | .ok (sink, _) =>
    let openEv : List Event :=
      match sink with
      | .stdout => []
      | .file path => [.evOpenFile path]
    if os.ioOk 0 then
      .ok
        { tick := 0
          opCount := 1
          writer := write_record { buffer := [], medium := [] } headerRecord
          trace := preTrace ++ openEv ++ [.evWriteHeader] }
    else
      .error (["when writing the headers into the CSV file", os.ioMsg 0],
        preTrace ++ openEv)

/-- `fn main()`.  `clap` rejects the argument combination
`--stdout --output-file ...` before anything else runs; otherwise the
pre-loop phase acquires the sink and writes the header, and the sampling
loop runs until the process disappears (`fuel` bounds the number of
iterations modelled). -/
def main (os : Os) (a : Args) (fs : Fs) (fuel : Nat) : Outcome :=
  if a.stdout && a.output_file.isSome then
    .usage
  else
    match preLoop os a fs with
    | .error (e, tr) => .errored e tr
    | .ok s0 => runLoop os a.interval_ms fuel s0

/-- The file system after the run.  The only file-system effect of the
program is the create/truncate performed during sink acquisition (rows
written afterwards accumulate in the acquired sink, tracked by
`WriterState.medium`). -/
def mainFs (os : Os) (a : Args) (fs : Fs) : Fs :=
  if a.stdout && a.output_file.isSome then
    fs
  else
    match writer_from_args os a.pid a.stdout a.output_file fs with
    | .error _ => fs
    | .ok (_, fs') => fs'

/-- The process exit code of an outcome: 0 on clean termination, 1 on an
`anyhow` error from `main`, 2 on a `clap` usage error; none while the
loop still runs. -/
def exitCode : Outcome → Option Nat
  | .finished _ _ => some 0
  | .errored _ _ => some 1
  | .usage => some 2
  | .outOfFuel _ => none

/-- The chronological sample rows for `n` loop iterations starting at
iteration `t`: one record per iteration whose process lookup succeeds,
in iteration order. -/
def samplesFrom (os : Os) (t : Nat) : Nat → List (List String)
  | 0 => []
  | n + 1 => ((os.proc t).map recordOf).toList ++ samplesFrom os (t + 1) n

/-- A concrete environment: the target process is never found and all
I/O succeeds. -/
def osGone : Os where
  refresh := fun _ => false
  proc := fun _ => none
  ioOk := fun _ => true
  ioMsg := fun _ => "io error"
  openOk := fun _ => true
  openMsg := fun _ => "os error"

/-- A concrete environment: the process exists at ticks 0 and 1 with
readings (10, 100) and (11, 101), disappears at the third check, and
all I/O succeeds. -/
def osTwo : Os where
  refresh := fun k => decide (k ≤ 2)
  proc := fun k => if k = 0 then some ⟨10, 100⟩ else if k = 1 then some ⟨11, 101⟩ else none
  ioOk := fun _ => true
  ioMsg := fun _ => "io error"
  openOk := fun _ => true
  openMsg := fun _ => "os error"

/-- A concrete environment where every refresh reports the process as
existing but the process table never has an entry for it. -/
def osNoEntry : Os where
  refresh := fun _ => true
  proc := fun _ => none
  ioOk := fun _ => true
  ioMsg := fun _ => "io error"
  openOk := fun _ => true
  openMsg := fun _ => "os error"

/-- A concrete environment where the writer operation after the header
(the first data-row write) fails. -/
def osWriteFail : Os where
  refresh := fun _ => true
  proc := fun _ => some ⟨42, 4242⟩
  ioOk := fun n => decide (n = 0)
  ioMsg := fun _ => "broken pipe"
  openOk := fun _ => true
  openMsg := fun _ => "os error"

/-- A concrete environment where the flush following the first data-row
write fails. -/
def osFlushFail : Os where
  refresh := fun _ => true
  proc := fun _ => some ⟨42, 4242⟩
  ioOk := fun n => decide (n ≤ 1)
  ioMsg := fun _ => "broken pipe"
  openOk := fun _ => true
  openMsg := fun _ => "os error"

/-- A concrete environment where every file open fails. -/
def osOpenFail : Os where
  refresh := fun _ => false
  proc := fun _ => none
  ioOk := fun _ => true
  ioMsg := fun _ => "io error"
  openOk := fun _ => false
  openMsg := fun _ => "permission denied"

/-- A file system with no content anywhere. -/
def fsEmpty : Fs := fun _ => []

/-- A file system where every path holds a row from a previous run. -/
def fsOld : Fs := fun _ => [["7", "70"]]

/-- Concrete arguments selecting the standard-output sink. -/
def argsStd : Args := { pid := 7, interval_ms := 250, stdout := true, output_file := none }

/-- Concrete arguments with the default file sink. -/
def argsFile : Args := { pid := 1234, interval_ms := 250, stdout := false, output_file := none }

/-- Concrete arguments with an explicit output path. -/
def argsPath : Args := { pid := 1234, interval_ms := 100, stdout := false, output_file := some "out.csv" }

/-- Concrete arguments setting both the stdout flag and an explicit
output path. -/
def argsBoth : Args := { pid := 1234, interval_ms := 250, stdout := true, output_file := some "out.csv" }

/-- The loop state right after a successful pre-loop phase with an empty
prior trace: the header sits in the writer buffer. -/
def s0Run : LoopState :=
  { tick := 0, opCount := 1, writer := { buffer := [headerRecord], medium := [] }, trace := [] }

/-- When sink acquisition and the header write succeed, the pre-loop
phase reaches the initial loop state: tick 0, one writer operation done,
the header buffered and nothing on the medium yet; no data row has been
written at that point. -/
theorem preLoop_ok (os : Os) (a : Args) (fs : Fs)
    (hopen : ∀ p, os.openOk p = true) (hio0 : os.ioOk 0 = true) :
    ∃ tr0, preLoop os a fs = .ok
      { tick := 0, opCount := 1,
        writer := { buffer := [headerRecord], medium := [] },
        trace := tr0 } ∧
      (∀ r v, Event.evWriteRow r v ∉ tr0) ∧
      tr0.count .evWriteHeader = 1 := by
  cases hst : a.stdout with
  | true =>
    refine ⟨[.evRefresh (os.refresh 0), .evWriteHeader], ?_,
      by intro r v; simp, by simp [List.count_cons]⟩
    simp [preLoop, writer_from_args, hst, hio0, write_record, headerRecord]
  | false =>
    refine ⟨[.evRefresh (os.refresh 0),
      .evOpenFile (a.output_file.getD (defaultPath a.pid)), .evWriteHeader],
      ?_, by intro r v; simp, by simp [List.count_cons]⟩
    simp [preLoop, writer_from_args, hst, hopen, hio0, write_record, headerRecord]

/-- When argument parsing passes, acquisition succeeds and the header
write succeeds, `main` is the loop run from the initial loop state. -/
theorem main_eq_runLoop (os : Os) (a : Args) (fs : Fs) (fuel : Nat)
    (hconf : (a.stdout && a.output_file.isSome) = false)
    (hopen : ∀ p, os.openOk p = true) (hio0 : os.ioOk 0 = true) :
    ∃ tr0, main os a fs fuel = runLoop os a.interval_ms fuel
      { tick := 0, opCount := 1,
        writer := { buffer := [headerRecord], medium := [] },
        trace := tr0 } ∧
      ∀ r v, Event.evWriteRow r v ∉ tr0 := by
  obtain ⟨tr0, hpre, hnr, _⟩ := preLoop_ok os a fs hopen hio0
  exact ⟨tr0, by simp [main, hconf, hpre], hnr⟩

/-- Loop invariant: if the next `n` refresh checks find the process with
an entry present, all writer operations succeed, and check `n` fails,
the loop finishes and the final medium is the starting medium, then the
still-buffered records, then the chronological samples of the `n`
ticks. -/
theorem runLoop_finishes (os : Os) (interval_ms : Nat) :
    ∀ (n fuel : Nat) (s : LoopState), n < fuel →
    (∀ j, os.ioOk j = true) →
    (∀ k, k < n → os.refresh (s.tick + k + 1) = true ∧ (os.proc (s.tick + k)).isSome) →
    os.refresh (s.tick + n + 1) = false →
    ∃ tr, runLoop os interval_ms fuel s =
      .finished (s.writer.medium ++ s.writer.buffer ++ samplesFrom os s.tick n) tr := by
  intro n
  induction n with
  | zero =>
    intro fuel s hfuel hio hk hend
    cases fuel with
    | zero => omega
    | succ f =>
      refine ⟨s.trace ++ [.evRefresh false], ?_⟩
      have hr : os.refresh (s.tick + 1) = false := by simpa using hend
      simp [runLoop, loopIter, hr, dropWriter, hio, flushWriter, samplesFrom]
  | succ m ih =>
    intro fuel s hfuel hio hk hend
    cases fuel with
    | zero => omega
    | succ f =>
      have h0 := hk 0 (by omega)
      have hr : os.refresh (s.tick + 1) = true := by simpa using h0.1
      obtain ⟨p, hp⟩ : ∃ p, os.proc s.tick = some p := by
        have := h0.2
        simp only [Nat.add_zero] at this
        exact Option.isSome_iff_exists.mp this
      obtain ⟨tr, htr⟩ := ih f
        { tick := s.tick + 1, opCount := s.opCount + 2,
          writer := flushWriter (write_record s.writer (recordOf p)),
          trace := s.trace ++ [.evRefresh true, .evLookup true,
            .evWriteRow (toString p.memory) (toString p.virtual_memory),
            .evFlush, .evSleep interval_ms] }
        (by omega) hio
        (fun k hkm => by
          have h := hk (k + 1) (by omega)
          refine ⟨?_, ?_⟩
          · have h1 := h.1
            rwa [show s.tick + (k + 1) + 1 = s.tick + 1 + k + 1 by omega] at h1
          · have h2 := h.2
            rwa [show s.tick + (k + 1) = s.tick + 1 + k by omega] at h2)
        (by rwa [show s.tick + (m + 1) + 1 = s.tick + 1 + m + 1 by omega] at hend)
      refine ⟨tr, ?_⟩
      have hstep : loopIter os interval_ms s = .next
        { tick := s.tick + 1, opCount := s.opCount + 2,
          writer := flushWriter (write_record s.writer (recordOf p)),
          trace := s.trace ++ [.evRefresh true, .evLookup true,
            .evWriteRow (toString p.memory) (toString p.virtual_memory),
            .evFlush, .evSleep interval_ms] } := by
        simp [loopIter, hr, hp, hio]
      rw [runLoop, hstep]
      refine Eq.trans htr ?_
      simp [flushWriter, write_record, samplesFrom, hp]

/-- Shifting the termination condition of the loop by one tick whose
refresh check succeeded. -/
theorem termCond_shift (os : Os) (t fuel : Nat) (hr : os.refresh (t + 1) = true) :
    (∃ n, n < fuel ∧ (∀ k, k < n → os.refresh (t + 1 + k + 1) = true) ∧
      os.refresh (t + 1 + n + 1) = false) ↔
    (∃ n, n < fuel + 1 ∧ (∀ k, k < n → os.refresh (t + k + 1) = true) ∧
      os.refresh (t + n + 1) = false) := by
  constructor
  · rintro ⟨n, hn, hall, hend⟩
    refine ⟨n + 1, by omega, ?_, ?_⟩
    · intro k hk
      cases k with
      | zero => simpa using hr
      | succ j =>
        have := hall j (by omega)
        rwa [show t + 1 + j + 1 = t + (j + 1) + 1 by omega] at this
    · rwa [show t + 1 + n + 1 = t + (n + 1) + 1 by omega] at hend
  · rintro ⟨n, hn, hall, hend⟩
    cases n with
    | zero =>
      exfalso
      have : os.refresh (t + 1) = false := by simpa using hend
      simp [hr] at this
    | succ m =>
      refine ⟨m, by omega, ?_, ?_⟩
      · intro k hk
        have := hall (k + 1) (by omega)
        rwa [show t + (k + 1) + 1 = t + 1 + k + 1 by omega] at this
      · rwa [show t + (m + 1) + 1 = t + 1 + m + 1 by omega] at hend

/-- With all writer I/O succeeding, the loop finishes normally within
`fuel` iterations exactly when some refresh check within the fuel bound
fails after a run of successful checks. -/
theorem runLoop_finished_iff (os : Os) (interval_ms : Nat)
    (hio : ∀ j, os.ioOk j = true) :
    ∀ (fuel : Nat) (s : LoopState),
    (∃ out tr, runLoop os interval_ms fuel s = .finished out tr) ↔
    (∃ n, n < fuel ∧ (∀ k, k < n → os.refresh (s.tick + k + 1) = true) ∧
      os.refresh (s.tick + n + 1) = false) := by
  intro fuel
  induction fuel with
  | zero =>
    intro s
    constructor
    · rintro ⟨out, tr, h⟩
      simp [runLoop] at h
    · rintro ⟨n, hn, _, _⟩
      omega
  | succ f ih =>
    intro s
    cases hr : os.refresh (s.tick + 1) with
    | false =>
      constructor
      · rintro ⟨out, tr, _⟩
        exact ⟨0, by omega, by intro k hk; omega, by simpa using hr⟩
      · rintro ⟨n, _, _, _⟩
        exact ⟨(dropWriter os s.opCount s.writer).medium, s.trace ++ [.evRefresh false],
          by simp [runLoop, loopIter, hr]⟩
    | true =>
      have hnext : ∀ s', loopIter os interval_ms s = .next s' → s'.tick = s.tick + 1 →
          ((∃ out tr, runLoop os interval_ms (f + 1) s = .finished out tr) ↔
            (∃ n, n < f + 1 ∧ (∀ k, k < n → os.refresh (s.tick + k + 1) = true) ∧
              os.refresh (s.tick + n + 1) = false)) := by
        intro s' hstep htick
        rw [show (∃ out tr, runLoop os interval_ms (f + 1) s = .finished out tr) ↔
            (∃ out tr, runLoop os interval_ms f s' = .finished out tr) by
          rw [runLoop, hstep]]
        rw [ih s', htick]
        exact termCond_shift os s.tick f hr
      cases hp : os.proc s.tick with
      | none =>
        refine hnext
          { s with tick := s.tick + 1,
                   trace := s.trace ++ [.evRefresh true, .evLookup false] }
          ?_ rfl
        simp [loopIter, hr, hp]
      | some p =>
        refine hnext
          { tick := s.tick + 1, opCount := s.opCount + 2,
            writer := flushWriter (write_record s.writer (recordOf p)),
            trace := s.trace ++ [.evRefresh true, .evLookup true,
              .evWriteRow (toString p.memory) (toString p.virtual_memory),
              .evFlush, .evSleep interval_ms] }
          ?_ rfl
        simp [loopIter, hr, hp, hio]

/-- A run whose first refresh check fails ends cleanly with exactly the
header row on the medium and no data-row event anywhere in the trace. -/
theorem main_header_only (os : Os) (a : Args) (fs : Fs) (fuel : Nat)
    (hgone : os.refresh 1 = false) (hio : ∀ j, os.ioOk j = true)
    (hopen : ∀ p, os.openOk p = true)
    (hconf : (a.stdout && a.output_file.isSome) = false) (hfuel : 0 < fuel) :
    ∃ tr, main os a fs fuel = .finished [headerRecord] tr ∧
      ∀ r v, Event.evWriteRow r v ∉ tr := by
  obtain ⟨tr0, hm, hnr⟩ := main_eq_runLoop os a fs fuel hconf hopen (hio 0)
  cases fuel with
  | zero => omega
  | succ f =>
    refine ⟨tr0 ++ [.evRefresh false], ?_, ?_⟩
    · rw [hm, runLoop]
      have hstep : loopIter os a.interval_ms
          { tick := 0, opCount := 1,
            writer := { buffer := [headerRecord], medium := [] }, trace := tr0 } =
          .done
            { tick := 0, opCount := 1,
              writer := { buffer := [headerRecord], medium := [] },
              trace := tr0 ++ [.evRefresh false] } := by
        simp [loopIter, hgone]
      rw [hstep]
      simp [dropWriter, hio, flushWriter]
    · intro r v
      simp [hnr r v]

/-- Each tick whose process lookup succeeds contributes exactly one
sample row. -/
theorem samplesFrom_length (os : Os) :
    ∀ (n t : Nat), (∀ k, k < n → (os.proc (t + k)).isSome) →
    (samplesFrom os t n).length = n := by
  intro n
  induction n with
  | zero => intro t _; rfl
  | succ m ih =>
    intro t h
    obtain ⟨p, hp⟩ : ∃ p, os.proc t = some p := by
      have := h 0 (by omega)
      simp only [Nat.add_zero] at this
      exact Option.isSome_iff_exists.mp this
    have hm := ih (t + 1) (fun k hk => by
      have := h (k + 1) (by omega)
      rwa [show t + (k + 1) = t + 1 + k by omega] at this)
    simp [samplesFrom, hp, hm]

/-- C7: supplying both the stdout flag and an explicit output-file path
is a configuration error: `clap` rejects it before any sampling begins
and before any file is created or truncated — the run is a usage error
with a non-zero exit code and the file system is untouched. -/
theorem C7_conflicting_flags_usage_error (os : Os) (a : Args) (fs : Fs)
    (fuel : Nat) (path : String)
    (hs : a.stdout = true) (ho : a.output_file = some path) :
    main os a fs fuel = .usage ∧
    exitCode (main os a fs fuel) = some 2 ∧
    (∀ c, exitCode (main os a fs fuel) = some c → c ≠ 0) ∧
    mainFs os a fs = fs := by
  have hm : main os a fs fuel = .usage := by simp [main, hs, ho]
  have hf : mainFs os a fs = fs := by simp [mainFs, hs, ho]
  refine ⟨hm, by rw [hm]; rfl, ?_, hf⟩
  intro c hc
  rw [hm] at hc
  simp [exitCode] at hc
  omega

/-- C7 witness at concrete conflicting arguments. -/
theorem C7_conflicting_flags_usage_error_witness :
    main osGone argsBoth fsOld 3 = .usage ∧
    exitCode (main osGone argsBoth fsOld 3) = some 2 ∧
    (∀ c, exitCode (main osGone argsBoth fsOld 3) = some c → c ≠ 0) ∧
    mainFs osGone argsBoth fsOld = fsOld :=
  C7_conflicting_flags_usage_error osGone argsBoth fsOld 3 "out.csv" rfl rfl

/-- C8: the resolved sink is standard output when the stdout flag is
set; otherwise the file at the explicit path when one is given;
otherwise a file named by the literal prefix "memprobe-" concatenated
with the decimal process id and the suffix ".csv". -/
theorem C8_sink_resolution (os : Os) (pid : Nat) (fs : Fs)
    (hopen : ∀ p, os.openOk p = true) :
    (∀ output_file, writer_from_args os pid true output_file fs = .ok (.stdout, fs)) ∧
    (∀ path, writer_from_args os pid false (some path) fs =
      .ok (.file path, openTrunc fs path)) ∧
    writer_from_args os pid false none fs =
      .ok (.file ("memprobe-" ++ toString pid ++ ".csv"),
        openTrunc fs ("memprobe-" ++ toString pid ++ ".csv")) := by
  refine ⟨fun o => rfl, fun path => ?_, ?_⟩
  · simp [writer_from_args, hopen]
  · simp [writer_from_args, hopen, defaultPath]

/-- C8 witness at concrete arguments, covering all three cases. -/
theorem C8_sink_resolution_witness :
    writer_from_args osGone 1234 true (some "out.csv") fsOld = .ok (.stdout, fsOld) ∧
    writer_from_args osGone 1234 false (some "out.csv") fsOld =
      .ok (.file "out.csv", openTrunc fsOld "out.csv") ∧
    writer_from_args osGone 1234 false none fsOld =
      .ok (.file ("memprobe-" ++ toString 1234 ++ ".csv"),
        openTrunc fsOld ("memprobe-" ++ toString 1234 ++ ".csv")) :=
  ⟨(C8_sink_resolution osGone 1234 fsOld (fun _ => rfl)).1 (some "out.csv"),
   (C8_sink_resolution osGone 1234 fsOld (fun _ => rfl)).2.1 "out.csv",
   (C8_sink_resolution osGone 1234 fsOld (fun _ => rfl)).2.2⟩

/-- C9: acquiring a file sink creates the file if absent and truncates
it if present — afterwards the path holds no content from any previous
run and every other path is untouched; an acquisition failure is fatal
before the header is written, exits non-zero, and its error chain names
the offending path. -/
theorem C9_truncate_on_open_and_open_failure (os : Os) (a : Args) (fs : Fs)
    (fuel : Nat) (path : String)
    (hs : a.stdout = false) (ho : a.output_file = some path) :
    (os.openOk path = true →
      writer_from_args os a.pid a.stdout a.output_file fs =
        .ok (.file path, openTrunc fs path) ∧
      mainFs os a fs path = [] ∧
      (∀ q, q ≠ path → mainFs os a fs q = fs q)) ∧
    (os.openOk path = false →
      main os a fs fuel =
        .errored ["when creating the CSV file",
          "trying to create and truncate `" ++ path ++ "`", os.openMsg path]
          [.evRefresh (os.refresh 0)] ∧
      (∀ c, exitCode (main os a fs fuel) = some c → c ≠ 0)) := by
  constructor
  · intro hOk
    have hw' : writer_from_args os a.pid false (some path) fs =
        .ok (.file path, openTrunc fs path) := by
      simp [writer_from_args, hOk]
    refine ⟨by rw [hs, ho]; exact hw', ?_, ?_⟩
    · simp [mainFs, hs, ho, hw', openTrunc]
    · intro q hq
      simp [mainFs, hs, ho, hw', openTrunc, hq]
  · intro hBad
    have hm : main os a fs fuel =
        .errored ["when creating the CSV file",
          "trying to create and truncate `" ++ path ++ "`", os.openMsg path]
          [.evRefresh (os.refresh 0)] := by
      simp [main, preLoop, writer_from_args, hs, ho, hBad]
    refine ⟨hm, ?_⟩
    intro c hc
    rw [hm] at hc
    simp [exitCode] at hc
    omega

/-- C9 witness: a successful acquisition truncating prior content, and a
failing acquisition reported with the path. -/
theorem C9_truncate_on_open_and_open_failure_witness :
    (writer_from_args osGone argsPath.pid argsPath.stdout argsPath.output_file fsOld =
      .ok (.file "out.csv", openTrunc fsOld "out.csv") ∧
      mainFs osGone argsPath fsOld "out.csv" = [] ∧
      mainFs osGone argsPath fsOld "other.csv" = fsOld "other.csv") ∧
    main osOpenFail argsPath fsOld 3 =
      .errored ["when creating the CSV file",
        "trying to create and truncate `" ++ "out.csv" ++ "`",
        osOpenFail.openMsg "out.csv"]
        [.evRefresh (osOpenFail.refresh 0)] :=
  ⟨⟨((C9_truncate_on_open_and_open_failure osGone argsPath fsOld 3 "out.csv" rfl rfl).1 rfl).1,
    ((C9_truncate_on_open_and_open_failure osGone argsPath fsOld 3 "out.csv" rfl rfl).1 rfl).2.1,
    ((C9_truncate_on_open_and_open_failure osGone argsPath fsOld 3 "out.csv" rfl rfl).1 rfl).2.2
      "other.csv" (by decide)⟩,
   ((C9_truncate_on_open_and_open_failure osOpenFail argsPath fsOld 3 "out.csv" rfl rfl).2 rfl).1⟩

/-- C10: a loop iteration where the refresh reports the process as
existing but the process-table lookup returns no entry leaves the sink
entirely unchanged — no record written, no flush, the writer and the
operation count untouched — performs no sleep, and immediately
continues to the next iteration. -/
theorem C10_lookup_miss_noop (os : Os) (interval_ms : Nat) (s : LoopState)
    (hr : os.refresh (s.tick + 1) = true) (hp : os.proc s.tick = none) :
    loopIter os interval_ms s = .next
      { s with tick := s.tick + 1,
               trace := s.trace ++ [.evRefresh true, .evLookup false] } ∧
    ∀ s', loopIter os interval_ms s = .next s' →
      s'.writer = s.writer ∧ s'.opCount = s.opCount ∧
      s'.trace = s.trace ++ [.evRefresh true, .evLookup false] ∧
      s'.tick = s.tick + 1 := by
  have h : loopIter os interval_ms s = .next
      { s with tick := s.tick + 1,
               trace := s.trace ++ [.evRefresh true, .evLookup false] } := by
    simp [loopIter, hr, hp]
  refine ⟨h, ?_⟩
  intro s' hs'
  rw [h] at hs'
  injection hs' with h1
  subst h1
  exact ⟨rfl, rfl, rfl, rfl⟩

/-- C10 witness at a concrete environment whose lookup finds no
entry. -/
theorem C10_lookup_miss_noop_witness :
    loopIter osNoEntry 250 s0Run = .next
      { tick := 1, opCount := 1,
        writer := { buffer := [headerRecord], medium := [] },
        trace := [.evRefresh true, .evLookup false] } :=
  (C10_lookup_miss_noop osNoEntry 250 s0Run rfl rfl).1

/-- C5: in every loop iteration that writes a data row, the operations
happen in the order refresh → lookup/read → write row → flush → sleep:
the sink is flushed immediately after the row, before the sleep of that
tick begins, and the flush pushes the row (with anything still
buffered) onto the underlying medium. -/
theorem C5_row_tick_event_order (os : Os) (interval_ms : Nat) (s : LoopState)
    (p : Process)
    (hr : os.refresh (s.tick + 1) = true) (hp : os.proc s.tick = some p)
    (h1 : os.ioOk s.opCount = true) (h2 : os.ioOk (s.opCount + 1) = true) :
    loopIter os interval_ms s = .next
      { tick := s.tick + 1, opCount := s.opCount + 2,
        writer := flushWriter (write_record s.writer (recordOf p)),
        trace := s.trace ++ [.evRefresh true, .evLookup true,
          .evWriteRow (toString p.memory) (toString p.virtual_memory),
          .evFlush, .evSleep interval_ms] } ∧
    (flushWriter (write_record s.writer (recordOf p))).medium =
      s.writer.medium ++ s.writer.buffer ++ [recordOf p] := by
  constructor
  · simp [loopIter, hr, hp, h1, h2]
  · simp [flushWriter, write_record]

/-- C5 witness at a concrete environment with a live process. -/
theorem C5_row_tick_event_order_witness :
    loopIter osTwo 250 s0Run = .next
      { tick := 1, opCount := 3,
        writer := flushWriter (write_record s0Run.writer (recordOf ⟨10, 100⟩)),
        trace := [.evRefresh true, .evLookup true, .evWriteRow "10" "100",
          .evFlush, .evSleep 250] } ∧
    (flushWriter (write_record s0Run.writer (recordOf ⟨10, 100⟩))).medium =
      s0Run.writer.medium ++ s0Run.writer.buffer ++ [recordOf ⟨10, 100⟩] :=
  C5_row_tick_event_order osTwo 250 s0Run ⟨10, 100⟩ (by decide) (by decide)
    (by decide) (by decide)

/-- C6: an error while writing a data row or flushing the sink is
fatal: the loop aborts on the spot — no retry, no sleep, no further
iteration whatever fuel remains — the error chain wraps the failed
operation ("when writing a new line into the CSV file", resp. "when
flushing the CSV file"), the exit code is the non-zero 1, and `main`
propagates the abort unchanged. -/
theorem C6_write_flush_error_fatal (os : Os) (interval_ms fuel : Nat)
    (s : LoopState) (p : Process)
    (hr : os.refresh (s.tick + 1) = true) (hp : os.proc s.tick = some p) :
    (os.ioOk s.opCount = false →
      runLoop os interval_ms (fuel + 1) s =
        .errored ["when writing a new line into the CSV file", os.ioMsg s.opCount]
          (s.trace ++ [.evRefresh true, .evLookup true]) ∧
      exitCode (runLoop os interval_ms (fuel + 1) s) = some 1) ∧
    (os.ioOk s.opCount = true → os.ioOk (s.opCount + 1) = false →
      runLoop os interval_ms (fuel + 1) s =
        .errored ["when flushing the CSV file", os.ioMsg (s.opCount + 1)]
          (s.trace ++ [.evRefresh true, .evLookup true,
            .evWriteRow (toString p.memory) (toString p.virtual_memory)]) ∧
      exitCode (runLoop os interval_ms (fuel + 1) s) = some 1) ∧
    (∀ a fs, (a.stdout && a.output_file.isSome) = false →
      preLoop os a fs = .ok s →
      main os a fs (fuel + 1) = runLoop os a.interval_ms (fuel + 1) s) := by
  refine ⟨?_, ?_, ?_⟩
  · intro hw
    have hstep : loopIter os interval_ms s =
        .failed ["when writing a new line into the CSV file", os.ioMsg s.opCount]
          { s with opCount := s.opCount + 1,
                   trace := s.trace ++ [.evRefresh true, .evLookup true] } := by
      simp [loopIter, hr, hp, hw]
    have hm : runLoop os interval_ms (fuel + 1) s =
        .errored ["when writing a new line into the CSV file", os.ioMsg s.opCount]
          (s.trace ++ [.evRefresh true, .evLookup true]) := by
      rw [runLoop, hstep]
    exact ⟨hm, by rw [hm]; rfl⟩
  · intro h1 h2
    have hstep : loopIter os interval_ms s =
        .failed ["when flushing the CSV file", os.ioMsg (s.opCount + 1)]
          { s with opCount := s.opCount + 2,
                   writer := write_record s.writer (recordOf p),
                   trace := s.trace ++ [.evRefresh true, .evLookup true,
                     .evWriteRow (toString p.memory) (toString p.virtual_memory)] } := by
      simp [loopIter, hr, hp, h1, h2]
    have hm : runLoop os interval_ms (fuel + 1) s =
        .errored ["when flushing the CSV file", os.ioMsg (s.opCount + 1)]
          (s.trace ++ [.evRefresh true, .evLookup true,
            .evWriteRow (toString p.memory) (toString p.virtual_memory)]) := by
      rw [runLoop, hstep]
    exact ⟨hm, by rw [hm]; rfl⟩
  · intro a fs hconf hpre
    simp [main, hconf, hpre]

/-- C6 witness: a failing row write and a failing flush, each aborting
with its own context. -/
theorem C6_write_flush_error_fatal_witness :
    runLoop osWriteFail 250 3 s0Run =
      .errored ["when writing a new line into the CSV file", "broken pipe"]
        [.evRefresh true, .evLookup true] ∧
    runLoop osFlushFail 250 3 s0Run =
      .errored ["when flushing the CSV file", "broken pipe"]
        [.evRefresh true, .evLookup true, .evWriteRow "42" "4242"] :=
  ⟨((C6_write_flush_error_fatal osWriteFail 250 2 s0Run ⟨42, 4242⟩ (by decide)
      (by decide)).1 (by decide)).1,
   ((C6_write_flush_error_fatal osFlushFail 250 2 s0Run ⟨42, 4242⟩ (by decide)
      (by decide)).2.1 (by decide) (by decide)).1⟩

/-- C1: whenever the OS oracle honours the `sysinfo` contract (a
successful refresh implies the process entry is present), all writer
I/O succeeds, and the process disappears at check `n` within the fuel
bound, the run finishes with the sink medium being exactly one header
row followed by the sample rows of ticks 0..n-1 in strict insertion
order — exactly one sample per tick, so no row is reordered, rewritten
or skipped; only the final tick, at which the process has already
exited, contributes no row. -/
theorem C1_output_header_then_samples (os : Os) (a : Args) (fs : Fs)
    (n fuel : Nat)
    (hcoh : ∀ k, os.refresh (k + 1) = true → (os.proc k).isSome)
    (hio : ∀ j, os.ioOk j = true) (hopen : ∀ p, os.openOk p = true)
    (hconf : (a.stdout && a.output_file.isSome) = false)
    (hrun : ∀ k, k < n → os.refresh (k + 1) = true)
    (hend : os.refresh (n + 1) = false) (hfuel : n < fuel) :
    (∃ tr, main os a fs fuel = .finished (headerRecord :: samplesFrom os 0 n) tr) ∧
    (samplesFrom os 0 n).length = n := by
  obtain ⟨tr0, hm, _⟩ := main_eq_runLoop os a fs fuel hconf hopen (hio 0)
  have hsome : ∀ k, k < n → (os.proc k).isSome := fun k hk => hcoh k (hrun k hk)
  obtain ⟨tr, hloop⟩ := runLoop_finishes os a.interval_ms n fuel
    { tick := 0, opCount := 1,
      writer := { buffer := [headerRecord], medium := [] }, trace := tr0 }
    hfuel hio
    (fun k hk => ⟨by simpa using hrun k hk, by simpa using hsome k hk⟩)
    (by simpa using hend)
  refine ⟨⟨tr, ?_⟩, ?_⟩
  · rw [hm, hloop]
    simp
  · exact samplesFrom_length os n 0 (fun k hk => by simpa using hsome k hk)

/-- C1 witness: a process alive for two ticks yields the header then its
two sample rows, in order. -/
theorem C1_output_header_then_samples_witness :
    (∃ tr, main osTwo argsStd fsEmpty 5 =
      .finished (headerRecord :: samplesFrom osTwo 0 2) tr) ∧
    (samplesFrom osTwo 0 2).length = 2 :=
  C1_output_header_then_samples osTwo argsStd fsEmpty 2 5
    (fun k hk => by
      have hk2 : k ≤ 1 := by simpa [osTwo] using hk
      interval_cases k <;> simp [osTwo])
    (fun _ => rfl) (fun _ => rfl) rfl
    (fun k hk => by interval_cases k <;> rfl)
    (by decide) (by omega)

/-- C2 counterexample: at the start of the loop the header row sits in
the CSV writer's internal buffer while the underlying medium is still
empty — the header has been written but has NOT been flushed to the
underlying medium before the sampling loop starts (no flush is issued
between the header write and the loop; the `csv` writer only reaches
the medium on an explicit flush or on drop). -/
theorem C2_header_not_flushed_counterexample :
    (preLoop osGone argsStd fsEmpty).toOption.map
      (fun s => (s.writer.buffer, s.writer.medium)) =
      some ([headerRecord], []) := by decide

/-- C2 (amended): before the loop starts, exactly one header row is
written — into the CSV writer's internal buffer, with no flush issued
at that point — regardless of whether any data rows ever follow; the
header reaches the underlying medium later, at the first data-row flush
or when the writer is dropped at program exit, so even a run with zero
data rows ends with exactly the header on the medium. -/
theorem C2_header_buffered_before_loop (os : Os) (a : Args) (fs : Fs)
    (hopen : ∀ p, os.openOk p = true) (hio0 : os.ioOk 0 = true) :
    (∃ tr0, preLoop os a fs = .ok
      { tick := 0, opCount := 1,
        writer := { buffer := [headerRecord], medium := [] }, trace := tr0 } ∧
      tr0.count .evWriteHeader = 1) ∧
    (∀ fuel, 0 < fuel → os.refresh 1 = false → (∀ j, os.ioOk j = true) →
      (a.stdout && a.output_file.isSome) = false →
      ∃ tr, main os a fs fuel = .finished [headerRecord] tr) := by
  constructor
  · obtain ⟨tr0, hpre, _, hcount⟩ := preLoop_ok os a fs hopen hio0
    exact ⟨tr0, hpre, hcount⟩
  · intro fuel hf hgone hio hconf
    obtain ⟨tr, htr, _⟩ := main_header_only os a fs fuel hgone hio hopen hconf hf
    exact ⟨tr, htr⟩

/-- C2 witness: at a concrete environment the header is buffered once
before the loop and still reaches the medium of a run with no data
rows. -/
theorem C2_header_buffered_before_loop_witness :
    (∃ tr0, preLoop osGone argsStd fsEmpty = .ok
      { tick := 0, opCount := 1,
        writer := { buffer := [headerRecord], medium := [] }, trace := tr0 } ∧
      tr0.count .evWriteHeader = 1) ∧
    (∃ tr, main osGone argsStd fsEmpty 3 = .finished [headerRecord] tr) :=
  ⟨(C2_header_buffered_before_loop osGone argsStd fsEmpty (fun _ => rfl) rfl).1,
   (C2_header_buffered_before_loop osGone argsStd fsEmpty (fun _ => rfl) rfl).2
     3 (by omega) rfl (fun _ => rfl) rfl⟩

/-- C3: when the target process is not found at the first check of the
sampling loop, the run writes exactly the header row to the sink,
produces no data row at all, and exits with code 0. -/
theorem C3_missing_process_header_only (os : Os) (a : Args) (fs : Fs)
    (fuel : Nat)
    (hgone : os.refresh 1 = false) (hio : ∀ j, os.ioOk j = true)
    (hopen : ∀ p, os.openOk p = true)
    (hconf : (a.stdout && a.output_file.isSome) = false) (hfuel : 0 < fuel) :
    (∃ tr, main os a fs fuel = .finished [headerRecord] tr ∧
      ∀ r v, Event.evWriteRow r v ∉ tr) ∧
    (∀ out tr, main os a fs fuel = .finished out tr →
      exitCode (main os a fs fuel) = some 0) := by
  refine ⟨main_header_only os a fs fuel hgone hio hopen hconf hfuel, ?_⟩
  intro out tr h
  rw [h]
  rfl

/-- C3 witness: a never-found process id with the default file sink. -/
theorem C3_missing_process_header_only_witness :
    (∃ tr, main osGone argsFile fsOld 3 = .finished [headerRecord] tr ∧
      ∀ r v, Event.evWriteRow r v ∉ tr) ∧
    (∀ out tr, main osGone argsFile fsOld 3 = .finished out tr →
      exitCode (main osGone argsFile fsOld 3) = some 0) :=
  C3_missing_process_header_only osGone argsFile fsOld 3 rfl (fun _ => rfl)
    (fun _ => rfl) rfl (by omega)

/-- C4: with reliable I/O the sampling loop terminates normally exactly
when a refresh check fails to find the target id — whether at the first
tick or any later one, with no distinction between a process that
exited and an id that was never valid — and that normal termination
carries exit code 0. -/
theorem C4_terminates_iff_refresh_fails (os : Os) (a : Args) (fs : Fs)
    (fuel : Nat)
    (hio : ∀ j, os.ioOk j = true) (hopen : ∀ p, os.openOk p = true)
    (hconf : (a.stdout && a.output_file.isSome) = false) :
    ((∃ out tr, main os a fs fuel = .finished out tr) ↔
      (∃ n, n < fuel ∧ (∀ k, k < n → os.refresh (k + 1) = true) ∧
        os.refresh (n + 1) = false)) ∧
    (∀ out tr, main os a fs fuel = .finished out tr →
      exitCode (main os a fs fuel) = some 0) := by
  obtain ⟨tr0, hm, _⟩ := main_eq_runLoop os a fs fuel hconf hopen (hio 0)
  constructor
  · rw [hm]
    have h := runLoop_finished_iff os a.interval_ms hio fuel
      { tick := 0, opCount := 1,
        writer := { buffer := [headerRecord], medium := [] }, trace := tr0 }
    simpa using h
  · intro out tr h
    rw [h]
    rfl

/-- C4 witness: the run over a process alive for two ticks finishes
normally, through the right-to-left direction of the equivalence. -/
theorem C4_terminates_iff_refresh_fails_witness :
    ∃ out tr, main osTwo argsStd fsEmpty 5 = .finished out tr :=
  (C4_terminates_iff_refresh_fails osTwo argsStd fsEmpty 5 (fun _ => rfl)
    (fun _ => rfl) rfl).1.mpr
    ⟨2, by omega, fun k hk => by interval_cases k <;> rfl, by decide⟩

end Memprobe
